import Mathlib

/-!
Shallow embedding of the core logic of the react-native-calendars fork:
the week-window builder of `src/expandableCalendar/WeekCalendar/new.tsx`
and the expansion state machine of the ExpandableCalendar component.

Calendar dates are embedded as integers counting days since 1970-01-01
(the canonical `YYYY-MM-DD` strings of the source are in bijection with
day numbers, and the XDate collaborator's `getDay`, `addDays`, `addWeeks`
act on day numbers in the standard way: 1970-01-01 was a Thursday, so the
JavaScript day-of-week of day number `n` is `(n + 4) mod 7`).
Heights and other JavaScript numbers are embedded as rationals: the code
only adds, subtracts, compares, and clamps them, so rationals model the
float arithmetic exactly on the inputs of interest.
-/

namespace RNCal

/-- Day number (days since 1970-01-01) of a Gregorian civil date,
standard civil-from-days algorithm; all intermediate divisions act on
nonnegative operands for the years used here. -/
def daysFromCivil (y m d : Int) : Int :=
  let y2 : Int := if m ≤ 2 then y - 1 else y
  let era : Int := y2 / 400
  let yoe : Int := y2 - era * 400
  let mp : Int := (m + 9) % 12
  let doy : Int := (153 * mp + 2) / 5 + d - 1
  let doe : Int := yoe * 365 + yoe / 4 - yoe / 100 + doy
  era * 146097 + doe - 719468

/-- JavaScript `XDate.getDay` (day of week, 0 = Sunday) of a day number. -/
def getDay (date : Int) : Int := (date + 4) % 7

/-- The day-of-week value after the wrap adjustment performed at the top of
`getDate` in `WeekCalendar/new.tsx`: a day-of-week earlier than `firstDay`
(with `firstDay > 0`) is wrapped by adding 7. -/
def adjustedDow (date firstDay : Int) : Int :=
  if getDay date < firstDay ∧ 0 < firstDay then 7 + getDay date else getDay date

/-- Embedding of `getDate(date, firstDay, weekIndex)` of
`src/expandableCalendar/WeekCalendar/new.tsx` (lines 148-161): for
`weekIndex = 0` the date is left as is (source comment: leave the current
date in the visible week as is); otherwise the date is moved back to the
start of its week (`addDays(firstDay - dayOfTheWeek)`); then
`addWeeks(weekIndex)` adds `7 * weekIndex` days. -/
def getDate (date firstDay weekIndex : Int) : Int :=
  let dd := if weekIndex = 0 then date else date + (firstDay - adjustedDow date firstDay)
  dd + 7 * weekIndex

/-- One step of the `for (let index = -n; index <= n; index++)` loop of
`getDatesArray`, building the pushed-array prefix for the first `k`
iterations (iteration `k` pushes `getDate date firstDay (k - n)`). -/
def getDatesArrayAux (date firstDay : Int) (numberOfPages : Nat) : Nat → List Int
  | 0 => []
  | Nat.succ k =>
      getDatesArrayAux date firstDay numberOfPages k ++
        [getDate date firstDay ((k : Int) - (numberOfPages : Int))]

/-- Embedding of `getDatesArray(date, firstDay, numberOfPages)` of
`src/expandableCalendar/WeekCalendar/new.tsx` (lines 164-171): the loop
runs `index` from `-numberOfPages` to `numberOfPages`, i.e. `2*n + 1`
iterations. -/
def getDatesArray (date firstDay : Int) (numberOfPages : Nat) : List Int :=
  getDatesArrayAux date firstDay numberOfPages (2 * numberOfPages + 1)

theorem getDatesArrayAux_eq_map (d f : Int) (n : Nat) :
    ∀ m : Nat, getDatesArrayAux d f n m =
      (List.range m).map (fun i : Nat => getDate d f ((i : Int) - (n : Int)))
  | 0 => rfl
  | Nat.succ k => by
      rw [getDatesArrayAux, getDatesArrayAux_eq_map d f n k, List.range_succ,
        List.map_append, List.map_singleton]

/-- The window is the independent image of the index range: each entry is a
function of the inputs and its own index alone. -/
theorem getDatesArray_eq_map (d f : Int) (n : Nat) :
    getDatesArray d f n =
      (List.range (2 * n + 1)).map (fun i : Nat => getDate d f ((i : Int) - (n : Int))) :=
  getDatesArrayAux_eq_map d f n (2 * n + 1)

theorem getDatesArray_length (d f : Int) (n : Nat) :
    (getDatesArray d f n).length = 2 * n + 1 := by
  rw [getDatesArray_eq_map, List.length_map, List.length_range]

theorem getDatesArray_getD (d f : Int) (n i : Nat) (h : i < 2 * n + 1) :
    (getDatesArray d f n).getD i 0 = getDate d f ((i : Int) - (n : Int)) := by
  rw [getDatesArray_eq_map, List.getD_eq_getElem?_getD, List.getElem?_map,
    List.getElem?_range h]
  rfl

theorem getDate_weekIndex_zero (d f : Int) : getDate d f 0 = d := by
  simp [getDate]

theorem getDate_weekIndex_ne_zero (d f k : Int) (hk : k ≠ 0) :
    getDate d f k = d + (f - adjustedDow d f) + 7 * k := by
  simp [getDate, hk]

theorem adjustedDow_sub_bounds (d f : Int) (h0 : 0 ≤ f) (h7 : f < 7) :
    0 ≤ adjustedDow d f - f ∧ adjustedDow d f - f ≤ 6 := by
  have h1 : 0 ≤ getDay d := Int.emod_nonneg _ (by norm_num)
  have h2 : getDay d < 7 := Int.emod_lt_of_pos _ (by norm_num)
  unfold adjustedDow
  split_ifs with hif <;> omega

theorem daysFromCivil_epoch : daysFromCivil 1970 1 1 = 0 := by decide

theorem daysFromCivil_20240315_friday : getDay (daysFromCivil 2024 3 15) = 5 := by decide

theorem daysFromCivil_20240315_sub_20240310 :
    daysFromCivil 2024 3 15 - daysFromCivil 2024 3 10 = 5 := by decide

theorem getDate_step_lt (d f : Int) (h0 : 0 ≤ f) (h7 : f < 7) (j : Int) :
    getDate d f j < getDate d f (j + 1) := by
  obtain ⟨hlo, hhi⟩ := adjustedDow_sub_bounds d f h0 h7
  simp only [getDate]
  split_ifs with hj hj1 hj1 <;> omega

theorem getDate_step_seven (d f j : Int) (hj : j ≠ 0) (hj1 : j + 1 ≠ 0) :
    getDate d f (j + 1) = getDate d f j + 7 := by
  simp only [getDate]
  split_ifs <;> omega

/-- Constant `NUMBER_OF_PAGES = 50` of `WeekCalendar/new.tsx`: the radius of
the page window. -/
def NUMBER_OF_PAGES : Nat := 50

/-- JavaScript `Math.round(n * 0.4)` for a natural number `n` (the value of
the `onReachNearEdgeThreshold` prop is `Math.round(NUMBER_OF_PAGES * 0.4)`,
line 129 of `WeekCalendar/new.tsx`). -/
def jsRound04 (n : Nat) : Nat := (4 * n + 5) / 10

/-- The `onReachNearEdgeThreshold` prop value passed to `InfiniteList`. -/
def onReachNearEdgeThreshold : Nat := jsRound04 NUMBER_OF_PAGES

/-- The `UpdateSources` provenance enum of the shared calendar context
(`expandableCalendar/commons`), as used by the embedded components. -/
inductive UpdateSources
  | ARROW_PRESS
  | WEEK_ARROW_PRESS
  | DAY_PRESS
  | WEEK_SCROLL
  | PAGE_SCROLL
  | PROP_UPDATE
deriving DecidableEq, Repr

/-- Embedding of the `onPageChange` callback of `WeekCalendar/new.tsx`
(lines 71-78): when `scrolledByUser` holds, `setDate(items[pageIndex],
UpdateSources.WEEK_SCROLL)` is invoked; otherwise nothing is published.
The result is the published pair, if any. -/
def onPageChange (items : List Int) (pageIndex : Nat) (scrolledByUser : Bool) :
    Option (Int × UpdateSources) :=
  if scrolledByUser then some (items.getD pageIndex 0, UpdateSources.WEEK_SCROLL) else none

/-- JavaScript `Array.prototype.findIndex`: index of the first element
satisfying the predicate, or -1. -/
def jsFindIndex (l : List Int) (p : Int → Bool) : Int :=
  match l.findIdx? p with
  | some i => (i : Int)
  | none => -1

/-- Embedding of the `useEffect` on `[date]` of `WeekCalendar/new.tsx`
(lines 55-61): when the update source differs from `WEEK_SCROLL` the
component scrolls to `pageIndex * containerWidth`; the effect never calls
`setItems`, so the window is returned unchanged in both branches. The
external `sameWeek` collaborator (from `dateutils`, not part of the
embedded sources) is passed as a function argument. -/
def dateEffect (sameWeek : Int → Int → Int → Bool) (items : List Int)
    (date firstDay : Int) (updateSource : UpdateSources) (containerWidth : ℚ) :
    List Int × Option ℚ :=
  if updateSource ≠ UpdateSources.WEEK_SCROLL then
    (items, some (((jsFindIndex items (fun item => sameWeek item date firstDay)) : ℚ) *
      containerWidth))
  else
    (items, none)

/-- Embedding of the `reloadPages` callback of `WeekCalendar/new.tsx`
(lines 80-86): reads `items[pageIndex]` and replaces the window with
`getDatesArray(date, firstDay, NUMBER_OF_PAGES)` in a single `setItems`
call (the radius is kept as a parameter `n`, instantiated by the component
with `NUMBER_OF_PAGES`). -/
def reloadPages (items : List Int) (pageIndex : Nat) (firstDay : Int) (n : Nat) :
    List Int :=
  getDatesArray (items.getD pageIndex 0) firstDay n

/-- The `Positions` enum of the ExpandableCalendar component. -/
inductive Positions
  | CLOSED
  | OPEN
deriving DecidableEq, Repr

/-- Constant `WEEK_HEIGHT = 46` of the ExpandableCalendar component. -/
def WEEK_HEIGHT : ℚ := 46

/-- Embedding of `getOpenHeight` of the ExpandableCalendar component
(lines 211-216): in non-horizontal orientation the open height is the
larger screen dimension; otherwise it is
`headerHeight + WEEK_HEIGHT * numberOfWeeks + (hideKnob ? 0 :
KNOB_CONTAINER_HEIGHT)`. The knob container height constant lives in the
style module, outside the embedded sources, so it is a parameter. -/
def getOpenHeight (horizontal : Bool) (screenHeight screenWidth : ℚ)
    (headerHeight numberOfWeeks : ℚ) (hideKnob : Bool) (knobHeight : ℚ) : ℚ :=
  if !horizontal then max screenHeight screenWidth
  else headerHeight + WEEK_HEIGHT * numberOfWeeks + (if hideKnob then 0 else knobHeight)

/-- Embedding of the `closedHeight` memo of the ExpandableCalendar
component (lines 219-222):
`headerHeight + WEEK_HEIGHT + (hideKnob || Number(numberOfDays) > 1 ? 0 :
KNOB_CONTAINER_HEIGHT)`. An absent `numberOfDays` is passed as `0`
(JavaScript `Number(undefined) > 1` is false). -/
def closedHeight (headerHeight : ℚ) (hideKnob : Bool) (numberOfDays : ℚ)
    (knobHeight : ℚ) : ℚ :=
  headerHeight + WEEK_HEIGHT + (if hideKnob ∨ numberOfDays > 1 then 0 else knobHeight)

/-- Observable outcome of one `bounceToPosition` call: the animated value
start, the spring target (which is also the committed `_height`), the flag
passed to `onCalendarToggled` on completion, the `Positions` value passed
to `setPosition` on completion, and the week-strip opacity set by
`resetWeekCalendarOpacity`. -/
structure BounceResult where
  animStart : ℚ
  animTarget : ℚ
  toggledOpen : Bool
  newPosition : Positions
  weekOpacity : ℚ
deriving DecidableEq, Repr

/-- Embedding of `bounceToPosition(toValue = 0)` of the ExpandableCalendar
component (lines 447-470). The threshold is `openHeight - closeThreshold`
when currently open and `closedHeight + openThreshold` when closed; a first
comparison of the live height `_height.current` resolves the fallback
resting value; `_height.current = toValue || newValue` makes a zero
`toValue` fall back to that resting value; the open flag is then
re-derived from the committed height; the completion callback reports that
flag and sets the position to `CLOSED` exactly when the committed height
equals `closedHeight`. -/
def bounceToPosition (isOpen : Bool) (openH closedH closeThr openThr : ℚ)
    (heightCur : ℚ) (toValue : ℚ) : BounceResult :=
  let threshold := if isOpen then openH - closeThr else closedH + openThr
  let newValue := if heightCur ≥ threshold then openH else closedH
  let newHeight := if toValue = 0 then newValue else toValue
  let isOpen2 := decide (newHeight ≥ threshold)
  { animStart := heightCur
    animTarget := newHeight
    toggledOpen := isOpen2
    newPosition := if newHeight = closedH then Positions.CLOSED else Positions.OPEN
    weekOpacity := if isOpen2 then 0 else 1 }

/-- Observable outcome of one `handlePanResponderMove` call: the clamped
wrapper height, the header top offset (non-horizontal branch), and the
week-strip opacity (horizontal branch). -/
structure MoveResult where
  height : ℚ
  headerTop : ℚ
  weekOpacity : ℚ
deriving DecidableEq, Repr

/-- Embedding of `handlePanResponderMove` of the ExpandableCalendar
component (lines 385-405): the height is
`Math.min(Math.max(closedHeight, _height.current + gestureState.dy),
openHeight.current)`; the other two channels reproduce the source's
orientation-dependent updates, keeping their previous values where the
source leaves them untouched. -/
def handlePanResponderMove (horizontal isOpen : Bool) (closedH openH : ℚ)
    (heightCur dy headerHeight prevHeaderTop prevOpacity : ℚ) : MoveResult :=
  { height := min (max closedH (heightCur + dy)) openH
    headerTop :=
      if !horizontal then min (max (-dy) (-headerHeight)) 0 else prevHeaderTop
    weekOpacity :=
      if !horizontal then prevOpacity
      else if !isOpen then min 1 (max (1 - dy / 100) 0)
      else if dy < 0 then max 0 (min (abs (dy / 200)) 1)
      else prevOpacity }

/-- Outcome of one `toggleCalendarPosition` call: the `bounceToPosition`
invocation it performs and the boolean it returns synchronously. -/
structure ToggleResult where
  bounce : BounceResult
  returned : Bool
deriving DecidableEq, Repr

/-- Embedding of `toggleCalendarPosition` of the ExpandableCalendar
component (lines 481-484): calls `bounceToPosition(isOpen ? closedHeight :
openHeight.current)` and returns `!isOpen` immediately, before the spring
animation completes. -/
def toggleCalendarPosition (isOpen : Bool) (openH closedH closeThr openThr : ℚ)
    (heightCur : ℚ) : ToggleResult :=
  { bounce := bounceToPosition isOpen openH closedH closeThr openThr heightCur
      (if isOpen then closedH else openH)
    returned := !isOpen }

theorem bounceToPosition_animTarget (isOpen : Bool) (o c ct ot h t : ℚ) :
    (bounceToPosition isOpen o c ct ot h t).animTarget =
      if t = 0 then (if h ≥ (if isOpen then o - ct else c + ot) then o else c) else t :=
  rfl

theorem bounceToPosition_toggledOpen (isOpen : Bool) (o c ct ot h t : ℚ) :
    (bounceToPosition isOpen o c ct ot h t).toggledOpen =
      decide ((if t = 0 then (if h ≥ (if isOpen then o - ct else c + ot) then o else c)
          else t) ≥ (if isOpen then o - ct else c + ot)) :=
  rfl

theorem bounceToPosition_newPosition (isOpen : Bool) (o c ct ot h t : ℚ) :
    (bounceToPosition isOpen o c ct ot h t).newPosition =
      if (if t = 0 then (if h ≥ (if isOpen then o - ct else c + ot) then o else c)
          else t) = c then Positions.CLOSED else Positions.OPEN :=
  rfl

theorem getDatesArray_center (d f : Int) (n : Nat) :
    (getDatesArray d f n).getD n 0 = d := by
  rw [getDatesArray_getD d f n n (by omega)]
  simpa using getDate_weekIndex_zero d f

/-- Claim C1 (counterexample): with `firstDay = 0` and anchor 2024-03-15
(a Friday, day of week 5), the entry at the window center is 2024-03-15
itself, not 2024-03-10, the preceding Sunday claimed by the spec. -/
theorem C1_counterexample :
    getDay (daysFromCivil 2024 3 15) = 5 ∧
    (getDatesArray (daysFromCivil 2024 3 15) 0 1).getD 1 0 = daysFromCivil 2024 3 15 ∧
    (getDatesArray (daysFromCivil 2024 3 15) 0 1).getD 1 0 ≠ daysFromCivil 2024 3 10 := by
  refine ⟨by decide, by decide, by decide⟩

/-- Claim C1 (amended): the entry at the center index of the window built
by `getDatesArray` is the anchor date itself, left as is; every other
index `k` holds the `firstDay`-aligned start of the anchor's week offset
by `k - radius` weeks. -/
theorem C1_center_is_anchor (d f : Int) (n : Nat) :
    (getDatesArray d f n).getD n 0 = d ∧
    (∀ k : Nat, k < 2 * n + 1 → k ≠ n →
      (getDatesArray d f n).getD k 0 =
        d + (f - adjustedDow d f) + 7 * ((k : Int) - (n : Int))) := by
  refine ⟨getDatesArray_center d f n, fun k hk hkn => ?_⟩
  rw [getDatesArray_getD d f n k hk, getDate_weekIndex_ne_zero d f _ (by omega)]

theorem C1_center_is_anchor_witness :
    (getDatesArray (daysFromCivil 2024 3 15) 0 1).getD 1 0 = daysFromCivil 2024 3 15 ∧
    (0 < 2 * 1 + 1 ∧ 0 ≠ 1) ∧
    (getDatesArray (daysFromCivil 2024 3 15) 0 1).getD 0 0 =
      daysFromCivil 2024 3 15 + (0 - adjustedDow (daysFromCivil 2024 3 15) 0) +
        7 * ((0 : Int) - (1 : Int)) :=
  ⟨(C1_center_is_anchor (daysFromCivil 2024 3 15) 0 1).1, ⟨by decide, by decide⟩,
    (C1_center_is_anchor (daysFromCivil 2024 3 15) 0 1).2 0 (by decide) (by decide)⟩

/-- Claim C2 (counterexample): with anchor 2024-03-15, `firstDay = 0` and
radius 1, the entries at indices 1 and 2 do not differ by 7 days (they are
2024-03-15 and 2024-03-17). -/
theorem C2_counterexample :
    (getDatesArray (daysFromCivil 2024 3 15) 0 1).length = 3 ∧
    (getDatesArray (daysFromCivil 2024 3 15) 0 1).getD 2 0 ≠
      (getDatesArray (daysFromCivil 2024 3 15) 0 1).getD 1 0 + 7 := by
  refine ⟨by decide, by decide⟩

/-- Claim C2 (amended): for `0 ≤ firstDay < 7` the window has `2*radius+1`
entries and is strictly increasing; each pair of consecutive entries not
involving the center index differs by exactly 7 days, and the pairs that
touch the center differ by exactly `7 + o` and `7 - o` days, where
`o = adjustedDow - firstDay ∈ [0, 6]` is the anchor's offset from its week
start, with `o = 0` exactly when the anchor is the week start (its day of
week equals `firstDay`), because the center keeps the anchor date as is. -/
theorem C2_window_monotone (d f : Int) (n : Nat) (h0 : 0 ≤ f) (h7 : f < 7) :
    (getDatesArray d f n).length = 2 * n + 1 ∧
    (∀ i : Nat, i + 1 < 2 * n + 1 →
      (getDatesArray d f n).getD i 0 < (getDatesArray d f n).getD (i + 1) 0) ∧
    (∀ i : Nat, i + 1 < 2 * n + 1 → i ≠ n → i + 1 ≠ n →
      (getDatesArray d f n).getD (i + 1) 0 = (getDatesArray d f n).getD i 0 + 7) ∧
    (0 ≤ adjustedDow d f - f ∧ adjustedDow d f - f ≤ 6) ∧
    (adjustedDow d f - f = 0 ↔ getDay d = f) ∧
    (0 < n → (getDatesArray d f n).getD n 0 =
      (getDatesArray d f n).getD (n - 1) 0 + (7 + (adjustedDow d f - f))) ∧
    (0 < n → (getDatesArray d f n).getD (n + 1) 0 =
      (getDatesArray d f n).getD n 0 + (7 - (adjustedDow d f - f))) := by
  have h1 : 0 ≤ getDay d := Int.emod_nonneg _ (by norm_num)
  have h2 : getDay d < 7 := Int.emod_lt_of_pos _ (by norm_num)
  have hcast : ∀ i : Nat, ((i + 1 : Nat) : Int) - (n : Int) = ((i : Int) - (n : Int)) + 1 := by
    intro i
    push_cast
    ring
  refine ⟨getDatesArray_length d f n, fun i hi => ?_, fun i hi hin hin1 => ?_,
    adjustedDow_sub_bounds d f h0 h7, ?_, fun hn => ?_, fun hn => ?_⟩
  · rw [getDatesArray_getD d f n i (by omega), getDatesArray_getD d f n (i + 1) hi,
      hcast i]
    exact getDate_step_lt d f h0 h7 _
  · rw [getDatesArray_getD d f n i (by omega), getDatesArray_getD d f n (i + 1) hi,
      hcast i]
    exact getDate_step_seven d f _ (by omega) (by omega)
  · unfold adjustedDow
    split_ifs with hif <;> omega
  · rw [getDatesArray_center, getDatesArray_getD d f n (n - 1) (by omega),
      getDate_weekIndex_ne_zero d f _ (by omega)]
    omega
  · rw [getDatesArray_center, getDatesArray_getD d f n (n + 1) (by omega),
      getDate_weekIndex_ne_zero d f _ (by omega)]
    omega

theorem C2_window_monotone_witness :
    (0 : Int) ≤ 0 ∧ (0 : Int) < 7 ∧
    (getDatesArray (daysFromCivil 2024 3 15) 0 2).length = 2 * 2 + 1 ∧
    (0 + 1 < 2 * 2 + 1 ∧
      (getDatesArray (daysFromCivil 2024 3 15) 0 2).getD 0 0 <
        (getDatesArray (daysFromCivil 2024 3 15) 0 2).getD (0 + 1) 0) ∧
    (0 ≠ 2 ∧ 0 + 1 ≠ 2 ∧
      (getDatesArray (daysFromCivil 2024 3 15) 0 2).getD (0 + 1) 0 =
        (getDatesArray (daysFromCivil 2024 3 15) 0 2).getD 0 0 + 7) ∧
    (0 ≤ adjustedDow (daysFromCivil 2024 3 15) 0 - 0 ∧
      adjustedDow (daysFromCivil 2024 3 15) 0 - 0 ≤ 6) ∧
    (adjustedDow (daysFromCivil 2024 3 15) 0 - 0 = 0 ↔
      getDay (daysFromCivil 2024 3 15) = 0) ∧
    ((0 : Nat) < 2 ∧
      (getDatesArray (daysFromCivil 2024 3 15) 0 2).getD 2 0 =
        (getDatesArray (daysFromCivil 2024 3 15) 0 2).getD (2 - 1) 0 +
          (7 + (adjustedDow (daysFromCivil 2024 3 15) 0 - 0))) ∧
    (getDatesArray (daysFromCivil 2024 3 15) 0 2).getD (2 + 1) 0 =
      (getDatesArray (daysFromCivil 2024 3 15) 0 2).getD 2 0 +
        (7 - (adjustedDow (daysFromCivil 2024 3 15) 0 - 0)) :=
  ⟨by decide, by decide,
    (C2_window_monotone (daysFromCivil 2024 3 15) 0 2 (by decide) (by decide)).1,
    ⟨by decide,
      (C2_window_monotone (daysFromCivil 2024 3 15) 0 2 (by decide) (by decide)).2.1 0
        (by decide)⟩,
    ⟨by decide, by decide,
      (C2_window_monotone (daysFromCivil 2024 3 15) 0 2 (by decide) (by decide)).2.2.1 0
        (by decide) (by decide) (by decide)⟩,
    (C2_window_monotone (daysFromCivil 2024 3 15) 0 2 (by decide) (by decide)).2.2.2.1,
    (C2_window_monotone (daysFromCivil 2024 3 15) 0 2 (by decide) (by decide)).2.2.2.2.1,
    ⟨by decide,
      (C2_window_monotone (daysFromCivil 2024 3 15) 0 2 (by decide) (by decide)).2.2.2.2.2.1
        (by decide)⟩,
    (C2_window_monotone (daysFromCivil 2024 3 15) 0 2 (by decide) (by decide)).2.2.2.2.2.2
      (by decide)⟩

/-- Claim C3 (confirmed): `bounceToPosition` with no explicit target (the
source default `toValue = 0`) resolves the resting height by comparing the
live height against `openHeight - closeThreshold` when open and
`closedHeight + openThreshold` when closed; in particular, from the closed
state, starting height `closedHeight + openThreshold + 1` resolves to
`Open` (target `openHeight`, toggled flag true) and starting height
`closedHeight + openThreshold - 1` resolves to `Closed` (target
`closedHeight`, toggled flag false), under the sane-geometry assumptions
`0 < openThreshold`, `0 < closedHeight`, and
`closedHeight + openThreshold ≤ openHeight`. -/
theorem C3_bounce_threshold_decision (o c ct ot : ℚ)
    (hot : 0 < ot) (hc : 0 < c) (hgeom : c + ot ≤ o) :
    (∀ h : ℚ, (bounceToPosition false o c ct ot h 0).animTarget =
        if h ≥ c + ot then o else c) ∧
    (∀ h : ℚ, (bounceToPosition true o c ct ot h 0).animTarget =
        if h ≥ o - ct then o else c) ∧
    ((bounceToPosition false o c ct ot (c + ot + 1) 0).toggledOpen = true ∧
      (bounceToPosition false o c ct ot (c + ot + 1) 0).animTarget = o ∧
      (bounceToPosition false o c ct ot (c + ot + 1) 0).newPosition = Positions.OPEN) ∧
    ((bounceToPosition false o c ct ot (c + ot - 1) 0).toggledOpen = false ∧
      (bounceToPosition false o c ct ot (c + ot - 1) 0).animTarget = c ∧
      (bounceToPosition false o c ct ot (c + ot - 1) 0).newPosition = Positions.CLOSED) := by
  refine ⟨fun h => ?_, fun h => ?_, ⟨?_, ?_, ?_⟩, ⟨?_, ?_, ?_⟩⟩ <;>
    simp only [bounceToPosition, ge_iff_le, Bool.false_eq_true, Bool.true_eq_false,
      if_false, if_true, decide_eq_true_eq, decide_eq_false_iff_not] <;>
    split_ifs <;>
    first
      | rfl
      | linarith
      | (exfalso; linarith)
      | simp_all

theorem C3_bounce_threshold_decision_witness :
    (0 : ℚ) < 30 ∧ (0 : ℚ) < 100 ∧ (100 : ℚ) + 30 ≤ 200 ∧
    (bounceToPosition false 200 100 30 30 (100 + 30 + 1) 0).toggledOpen = true ∧
    (bounceToPosition false 200 100 30 30 (100 + 30 + 1) 0).animTarget = 200 ∧
    (bounceToPosition false 200 100 30 30 (100 + 30 - 1) 0).toggledOpen = false ∧
    (bounceToPosition false 200 100 30 30 (100 + 30 - 1) 0).animTarget = 100 :=
  ⟨by norm_num, by norm_num, by norm_num,
    (C3_bounce_threshold_decision 200 100 30 30 (by norm_num) (by norm_num)
      (by norm_num)).2.2.1.1,
    (C3_bounce_threshold_decision 200 100 30 30 (by norm_num) (by norm_num)
      (by norm_num)).2.2.1.2.1,
    (C3_bounce_threshold_decision 200 100 30 30 (by norm_num) (by norm_num)
      (by norm_num)).2.2.2.1,
    (C3_bounce_threshold_decision 200 100 30 30 (by norm_num) (by norm_num)
      (by norm_num)).2.2.2.2.1⟩

/-- Claim C4 (confirmed): for every gesture delta and start height within
bounds, the height produced by `handlePanResponderMove` lies in
`[closedHeight, openHeight]`, assuming `closedHeight ≤ openHeight`. -/
theorem C4_move_height_clamped (horizontal isOpen : Bool) (c o hcur dy hh pt po : ℚ)
    (hco : c ≤ o) (hlo : c ≤ hcur) (hhi : hcur ≤ o) :
    c ≤ (handlePanResponderMove horizontal isOpen c o hcur dy hh pt po).height ∧
    (handlePanResponderMove horizontal isOpen c o hcur dy hh pt po).height ≤ o := by
  refine ⟨?_, ?_⟩
  · show c ≤ min (max c (hcur + dy)) o
    exact le_min (le_max_left _ _) hco
  · show min (max c (hcur + dy)) o ≤ o
    exact min_le_right _ _

theorem C4_move_height_clamped_witness :
    (100 : ℚ) ≤ 200 ∧ (100 : ℚ) ≤ 150 ∧ (150 : ℚ) ≤ 200 ∧
    ((100 : ℚ) ≤ (handlePanResponderMove true false 100 200 150 (-1000) 78 0 1).height ∧
      (handlePanResponderMove true false 100 200 150 (-1000) 78 0 1).height ≤ 200) :=
  ⟨by norm_num, by norm_num, by norm_num,
    C4_move_height_clamped true false 100 200 150 (-1000) 78 0 1 (by norm_num)
      (by norm_num) (by norm_num)⟩

/-- Claim C5 (confirmed): `onPageChange` publishes the page's date with
`WEEK_SCROLL` provenance exactly when `scrolledByUser` is true and
publishes nothing otherwise; and the date effect, on an update whose
provenance is `WEEK_SCROLL`, issues no scroll command and leaves the
window unchanged. -/
theorem C5_provenance_echo_suppression :
    (∀ (items : List Int) (pageIndex : Nat),
      onPageChange items pageIndex true =
        some (items.getD pageIndex 0, UpdateSources.WEEK_SCROLL)) ∧
    (∀ (items : List Int) (pageIndex : Nat), onPageChange items pageIndex false = none) ∧
    (∀ (sameWeek : Int → Int → Int → Bool) (items : List Int) (date firstDay : Int)
      (w : ℚ), dateEffect sameWeek items date firstDay UpdateSources.WEEK_SCROLL w =
        (items, none)) := by
  refine ⟨fun items i => rfl, fun items i => rfl, fun sw items d f w => ?_⟩
  simp [dateEffect]

/-- Claim C6 (confirmed): the near-edge threshold is configured as
`Math.round(0.4 * NUMBER_OF_PAGES) = 20`, and `reloadPages` performs its
single rebuild through `getDatesArray` centered on the active page's date,
so that date sits again at the center index of the new window. -/
theorem C6_reload_recenters (items : List Int) (pageIndex : Nat) (f : Int) (n : Nat)
    (hpage : pageIndex < items.length) :
    reloadPages items pageIndex f n = getDatesArray (items.getD pageIndex 0) f n ∧
    (reloadPages items pageIndex f n).length = 2 * n + 1 ∧
    (reloadPages items pageIndex f n).getD n 0 = items.getD pageIndex 0 ∧
    onReachNearEdgeThreshold = jsRound04 NUMBER_OF_PAGES ∧
    onReachNearEdgeThreshold = 20 :=
  ⟨rfl, getDatesArray_length _ _ _, getDatesArray_center _ _ _, rfl, rfl⟩

theorem C6_reload_recenters_witness :
    (1 : Nat) < 3 ∧
    (reloadPages [10, 20, 30] 1 0 2).length = 2 * 2 + 1 ∧
    (reloadPages [10, 20, 30] 1 0 2).getD 2 0 = [(10 : Int), 20, 30].getD 1 0 :=
  ⟨by decide, (C6_reload_recenters [10, 20, 30] 1 0 2 (by decide)).2.1,
    (C6_reload_recenters [10, 20, 30] 1 0 2 (by decide)).2.2.1⟩

/-- Claim C7 (confirmed): in the horizontal orientation the derived
geometry satisfies
`openHeight = headerHeight + WEEK_HEIGHT * numberOfWeeks +
(hideKnob ? 0 : knobHeight)` and
`closedHeight = headerHeight + WEEK_HEIGHT +
(hideKnob or numberOfDays > 1 ? 0 : knobHeight)`, for every header height,
week count, and knob/multi-day configuration. -/
theorem C7_derived_geometry (sh sw hh w nd kh : ℚ) (hideKnob : Bool) :
    getOpenHeight true sh sw hh w hideKnob kh =
      hh + 46 * w + (if hideKnob then 0 else kh) ∧
    closedHeight hh hideKnob nd kh =
      hh + 46 + (if hideKnob ∨ nd > 1 then 0 else kh) := by
  constructor <;> simp [getOpenHeight, closedHeight, WEEK_HEIGHT]

/-- Claim C8 (confirmed): `toggleCalendarPosition` returns, synchronously
with the call and independently of the spring resolution, the negation of
the open flag at call time: true when toggling from `Closed`, false when
toggling from `Open`. -/
theorem C8_toggle_returns_intent (o c ct ot h : ℚ) :
    (∀ isOpen : Bool, (toggleCalendarPosition isOpen o c ct ot h).returned = !isOpen) ∧
    (toggleCalendarPosition false o c ct ot h).returned = true ∧
    (toggleCalendarPosition true o c ct ot h).returned = false :=
  ⟨fun _ => rfl, rfl, rfl⟩

/-- Claim C9 (confirmed): `getDatesArray` is a pure, deterministic
function of its three inputs: identical arguments yield identical
sequences, and the whole sequence is the image of the index range under a
per-index function, with no state carried between loop iterations. -/
theorem C9_getDatesArray_deterministic (d1 d2 f1 f2 : Int) (n1 n2 : Nat)
    (hd : d1 = d2) (hf : f1 = f2) (hn : n1 = n2) :
    getDatesArray d1 f1 n1 = getDatesArray d2 f2 n2 ∧
    getDatesArray d1 f1 n1 =
      (List.range (2 * n1 + 1)).map
        (fun i : Nat => getDate d1 f1 ((i : Int) - (n1 : Int))) := by
  subst hd
  subst hf
  subst hn
  exact ⟨rfl, getDatesArray_eq_map _ _ _⟩

theorem C9_getDatesArray_deterministic_witness :
    (0 : Int) = 0 ∧ (3 : Int) = 3 ∧ (1 : Nat) = 1 ∧
    getDatesArray 0 3 1 = getDatesArray 0 3 1 :=
  ⟨rfl, rfl, rfl, (C9_getDatesArray_deterministic 0 0 3 3 1 1 rfl rfl rfl).1⟩

/-- Claim C10 (confirmed): because the committed height is
`toValue || newValue`, an explicit target of 0 is indistinguishable from
passing no target: the resting height falls back to the threshold-resolved
`openHeight` or `closedHeight` (so no caller can request a resting height
of 0); and for a nonzero explicit target, the target is committed as is
and the completion flag is re-derived by comparing that target, not the
pre-gesture live height, against the threshold. -/
theorem C10_zero_target_falls_back (isOpen : Bool) (o c ct ot h h2 t : ℚ)
    (ht : t ≠ 0) :
    (bounceToPosition isOpen o c ct ot h 0).animTarget =
      (if h ≥ (if isOpen then o - ct else c + ot) then o else c) ∧
    (bounceToPosition isOpen o c ct ot h t).animTarget = t ∧
    (bounceToPosition isOpen o c ct ot h t).toggledOpen =
      decide (t ≥ (if isOpen then o - ct else c + ot)) ∧
    (bounceToPosition isOpen o c ct ot h t).toggledOpen =
      (bounceToPosition isOpen o c ct ot h2 t).toggledOpen := by
  rw [bounceToPosition_animTarget, bounceToPosition_animTarget,
    bounceToPosition_toggledOpen, bounceToPosition_toggledOpen]
  simp [ht]

theorem C10_zero_target_falls_back_witness :
    (120 : ℚ) ≠ 0 ∧
    (bounceToPosition false 200 100 30 30 150 0).animTarget =
      (if (150 : ℚ) ≥ (if (false : Bool) then (200 : ℚ) - 30 else 100 + 30)
        then 200 else 100) ∧
    (bounceToPosition false 200 100 30 30 150 120).animTarget = 120 :=
  ⟨by norm_num,
    (C10_zero_target_falls_back false 200 100 30 30 150 110 120 (by norm_num)).1,
    (C10_zero_target_falls_back false 200 100 30 30 150 110 120 (by norm_num)).2.1⟩

end RNCal
